import Mathlib

set_option maxRecDepth 4000

/-!
Shallow embedding of the runesco NES emulator core (src/: cpu.rs, bus.rs,
opcodes.rs, ppu/mod.rs, ppu/address.rs, ppu/scroll.rs, joypads.rs,
render/frame.rs), together with theorems settling the spec claims.

Machine integers (u8/u16/usize) are modelled as Nat, with explicit `% 256`
or `% 65536` exactly where the Rust code performs an `as` cast or a
wrapping operation.  Rust code paths that panic (array index out of
bounds, `unimplemented!`, explicit `panic!`, checked `-=` underflow on u8,
and checked usize overflow in offset arithmetic) are modelled as
`Option`-valued functions returning `none`.
Byte arrays are modelled as total functions `Nat → Nat`.
-/

/-- Pointwise update of a byte store, used to model `arr[i] = v`. -/
def store (f : Nat → Nat) (i v : Nat) : Nat → Nat :=
  fun j => if j = i then v else f j

/-- Nametable mirroring kinds, from cartridge.rs (`enum Mirroring`). -/
inductive Mirroring where
  | HORIZONTAL
  | VERTICAL
  | FOUR_SCREEN
deriving DecidableEq

/-- PPU address register, from ppu/address.rs: a two-byte big-endian latched
register; `hiPtr` tells whether the next write lands in the high byte. -/
structure AddrRegister where
  hi : Nat
  lo : Nat
  hiPtr : Bool
deriving DecidableEq

/-- AddrRegister::new. -/
def AddrRegister.new : AddrRegister := ⟨0, 0, true⟩

/-- AddrRegister::get: the full address `(hi << 8) | lo`. -/
def AddrRegister.get (r : AddrRegister) : Nat :=
  (r.hi <<< 8) ||| r.lo

/-- AddrRegister::set: store a 16-bit value as high and low bytes. -/
def AddrRegister.set (r : AddrRegister) (data : Nat) : AddrRegister :=
  { r with hi := (data >>> 8) % 256, lo := data &&& 0xff }

/-- AddrRegister::update: write one byte at the position selected by the
latch, mask the stored address down to 14 bits, toggle the latch. -/
def AddrRegister.update (r : AddrRegister) (data : Nat) : AddrRegister :=
  let r1 := if r.hiPtr then { r with hi := data } else { r with lo := data }
  let r2 := if r1.get > 0x3fff then r1.set (r1.get &&& 0b11111111111111) else r1
  { r2 with hiPtr := !r2.hiPtr }

/-- AddrRegister::increment: wrapping-add `inc` to the low byte, carry into
the high byte on wrap, then mask down to 14 bits. -/
def AddrRegister.increment (r : AddrRegister) (inc : Nat) : AddrRegister :=
  let lo := r.lo
  let r1 := { r with lo := (r.lo + inc) % 256 }
  let r2 := if lo > r1.lo then { r1 with hi := (r1.hi + 1) % 256 } else r1
  if r2.get > 0x3fff then r2.set (r2.get &&& 0b11111111111111) else r2

/-- AddrRegister::reset_latch. -/
def AddrRegister.reset_latch (r : AddrRegister) : AddrRegister :=
  { r with hiPtr := true }

/-- PPU scroll register, from ppu/scroll.rs. -/
structure ScrollRegister where
  scroll_x : Nat
  scroll_y : Nat
  scroll_switch : Bool
deriving DecidableEq

/-- ScrollRegister::new. -/
def ScrollRegister.new : ScrollRegister := ⟨0, 0, false⟩

/-- ScrollRegister::write: first write sets X, second sets Y, toggling. -/
def ScrollRegister.write (s : ScrollRegister) (data : Nat) : ScrollRegister :=
  if s.scroll_switch then { s with scroll_y := data, scroll_switch := !s.scroll_switch }
  else { s with scroll_x := data, scroll_switch := !s.scroll_switch }

/-- ScrollRegister::reset_scroll_switch. -/
def ScrollRegister.reset_scroll_switch (s : ScrollRegister) : ScrollRegister :=
  { s with scroll_switch := false }

/-- Modelled from the spec: ppu/controller.rs (the ControlRegister type) is
not among the sources; CTRL is an 8-bit register and its bit 7 is the
NMI-enable bit ("NMI ... while CTRL's NMI-enable bit is 1", standard $2000
layout). `generate_vblank_nmi` reads that bit. -/
def ControlRegister.generate_vblank_nmi (ctrl : Nat) : Bool :=
  ctrl.testBit 7

/-- Modelled from the spec: "Each access post-increments ADDR by 1 or 32
depending on CTRL bit 2" — ControlRegister::vram_addr_increment. -/
def ControlRegister.vram_addr_increment (ctrl : Nat) : Nat :=
  if ctrl.testBit 2 then 32 else 1

/-- Modelled from the spec: ppu/status.rs (the StatusRegister type) is not
among the sources; STATUS is an 8-bit register whose bit 7 is the
vertical-blank flag (the repository's own tests check `snapshot() >> 7`). -/
def StatusRegister.set_vblank_status (st : Nat) (b : Bool) : Nat :=
  if b then st ||| 0x80 else st &&& 0x7f

/-- Modelled from the spec: StatusRegister::reset_vblank_status clears the
vertical-blank flag (bit 7). -/
def StatusRegister.reset_vblank_status (st : Nat) : Nat :=
  st &&& 0x7f

/-- Modelled from the spec: the sprite-zero-hit flag is STATUS bit 6
(standard $2002 layout); StatusRegister::set_sprite_zero_hit. -/
def StatusRegister.set_sprite_zero_hit (st : Nat) (b : Bool) : Nat :=
  if b then st ||| 0x40 else st &&& 0xbf

/-- Modelled from the spec: StatusRegister::snapshot returns the register
byte unchanged. -/
def StatusRegister.snapshot (st : Nat) : Nat := st

/-- PPU state, from ppu/mod.rs (`struct NesPPU`).  CTRL, MASK and STATUS
are kept as raw register bytes. -/
structure NesPPU where
  chr_rom : Nat → Nat
  palette_table : Nat → Nat
  vram : Nat → Nat
  oam_data : Nat → Nat
  mirroring : Mirroring
  internal_data_buf : Nat
  addr : AddrRegister
  ctrl : Nat
  mask : Nat
  oam_addr : Nat
  scroll : ScrollRegister
  status : Nat
  scanline : Nat
  cycles : Nat
  nmi_interrupt : Option Nat

/-- NesPPU::new with a given CHR image and mirroring. -/
def NesPPU.new (chr : Nat → Nat) (mirroring : Mirroring) : NesPPU :=
  { chr_rom := chr
    palette_table := fun _ => 0
    vram := fun _ => 0
    oam_data := fun _ => 0
    mirroring := mirroring
    internal_data_buf := 0
    addr := AddrRegister.new
    ctrl := 0
    mask := 0
    oam_addr := 0
    scroll := ScrollRegister.new
    status := 0
    scanline := 0
    cycles := 0
    nmi_interrupt := none }

/-- NesPPU::tick (ppu/mod.rs lines 68-91): advance the dot counter, cross a
scanline at 341 dots, raise vertical blank (and possibly NMI) on entering
scanline 241, wrap the frame at scanline 262.  Returns the new state and
the frame-complete flag. -/
def NesPPU.tick (p : NesPPU) (cycles : Nat) : NesPPU × Bool :=
  let p0 : NesPPU := { p with cycles := p.cycles + cycles }
  if 341 ≤ p0.cycles then
    let p1 : NesPPU := { p0 with cycles := p0.cycles - 341, scanline := p0.scanline + 1 }
    let p2 : NesPPU :=
      if p1.scanline = 241 then
        let st1 := StatusRegister.set_vblank_status p1.status true
        let q : NesPPU := { p1 with status := StatusRegister.set_sprite_zero_hit st1 false }
        if ControlRegister.generate_vblank_nmi q.ctrl then
          { q with nmi_interrupt := some 1 }
        else q
      else p1
    if 262 ≤ p2.scanline then
      ({ p2 with
          scanline := 0
          nmi_interrupt := none
          status := StatusRegister.reset_vblank_status
            (StatusRegister.set_sprite_zero_hit p2.status false) }, true)
    else (p2, false)
  else (p0, false)

/-- NesPPU::mirror_vram_addr: mask $3000-$3EFF down to $2000-$2EFF, then
fold the four logical name tables onto the two physical 1 KiB banks. -/
def NesPPU.mirror_vram_addr (p : NesPPU) (addr : Nat) : Nat :=
  let mirrored_vram := addr &&& 0b10111111111111
  let vram_index := mirrored_vram - 0x2000
  let name_table := vram_index / 0x400
  match p.mirroring, name_table with
  | Mirroring.VERTICAL, 2 => vram_index - 0x800
  | Mirroring.VERTICAL, 3 => vram_index - 0x800
  | Mirroring.HORIZONTAL, 2 => vram_index - 0x400
  | Mirroring.HORIZONTAL, 1 => vram_index - 0x400
  | Mirroring.HORIZONTAL, 3 => vram_index - 0x800
  | _, _ => vram_index

/-- NesPPU::increment_vram_addr. -/
def NesPPU.increment_vram_addr (p : NesPPU) : NesPPU :=
  { p with addr := p.addr.increment (ControlRegister.vram_addr_increment p.ctrl) }

/-- NesPPU::write_to_data (ppu/mod.rs lines 123-144).  CHR-space writes are
only logged; $3000-$3EFF hits `unimplemented!` (modelled as `none`); the
four palette mirrors $3F10/$3F14/$3F18/$3F1C alias down by $10; other
palette addresses index the 32-byte palette directly (an index ≥ 32, i.e.
an address ≥ $3F20, is an out-of-bounds panic, modelled as `none`).  Every
successful path post-increments ADDR. -/
def NesPPU.write_to_data (p : NesPPU) (value : Nat) : Option NesPPU :=
  let addr := p.addr.get
  if addr ≤ 0x1fff then
    some p.increment_vram_addr
  else if addr ≤ 0x2fff then
    some ({ p with vram := store p.vram (p.mirror_vram_addr addr) value }).increment_vram_addr
  else if addr ≤ 0x3eff then
    none
  else if addr = 0x3f10 ∨ addr = 0x3f14 ∨ addr = 0x3f18 ∨ addr = 0x3f1c then
    some ({ p with
      palette_table := store p.palette_table (addr - 0x10 - 0x3f00) value }).increment_vram_addr
  else if addr ≤ 0x3fff then
    if addr - 0x3f00 < 32 then
      some ({ p with
        palette_table := store p.palette_table (addr - 0x3f00) value }).increment_vram_addr
    else none
  else none

/-- NesPPU::read_data (ppu/mod.rs lines 194-216).  CHR and VRAM reads are
buffered; $3000-$3EFF panics (modelled as `none`); palette reads return the
palette byte directly without touching the buffer (an index ≥ 32 is an
out-of-bounds panic).  ADDR is post-incremented before the dispatch. -/
def NesPPU.read_data (p : NesPPU) : Option (Nat × NesPPU) :=
  let addr := p.addr.get
  let p := p.increment_vram_addr
  if addr ≤ 0x1fff then
    some (p.internal_data_buf, { p with internal_data_buf := p.chr_rom addr })
  else if addr ≤ 0x2fff then
    some (p.internal_data_buf, { p with internal_data_buf := p.vram (p.mirror_vram_addr addr) })
  else if addr ≤ 0x3eff then
    none
  else if addr ≤ 0x3fff then
    if addr - 0x3f00 < 32 then
      some (p.palette_table (addr - 0x3f00), p)
    else none
  else none

/-- NesPPU::write_oam_dma: copy 256 bytes into OAM starting at the current
OAM address, wrapping modulo 256. -/
def NesPPU.write_oam_dma (p : NesPPU) (data : Nat → Nat) : NesPPU :=
  (List.range 256).foldl
    (fun q i =>
      { q with
          oam_data := store q.oam_data q.oam_addr (data i)
          oam_addr := (q.oam_addr + 1) % 256 }) p

/-- NesPPU::read_oam_data. -/
def NesPPU.read_oam_data (p : NesPPU) : Nat :=
  p.oam_data p.oam_addr

/-- NesPPU::read_status: returns the snapshot and, as a side effect, clears
the vertical-blank flag and resets both the ADDR and SCROLL latches. -/
def NesPPU.read_status (p : NesPPU) : Nat × NesPPU :=
  (StatusRegister.snapshot p.status,
   { p with
       status := StatusRegister.reset_vblank_status p.status
       addr := p.addr.reset_latch
       scroll := p.scroll.reset_scroll_switch })

/-- NesPPU::write_to_oam_data: store and advance the OAM address. -/
def NesPPU.write_to_oam_data (p : NesPPU) (value : Nat) : NesPPU :=
  { p with
      oam_data := store p.oam_data p.oam_addr value
      oam_addr := (p.oam_addr + 1) % 256 }

/-- NesPPU::write_to_ppu_addr. -/
def NesPPU.write_to_ppu_addr (p : NesPPU) (value : Nat) : NesPPU :=
  { p with addr := p.addr.update value }

/-- NesPPU::write_to_ctrl. -/
def NesPPU.write_to_ctrl (p : NesPPU) (value : Nat) : NesPPU :=
  { p with ctrl := value }

/-- NesPPU::write_to_mask. -/
def NesPPU.write_to_mask (p : NesPPU) (value : Nat) : NesPPU :=
  { p with mask := value }

/-- NesPPU::write_to_oam_addr. -/
def NesPPU.write_to_oam_addr (p : NesPPU) (value : Nat) : NesPPU :=
  { p with oam_addr := value }

/-- NesPPU::write_to_scroll. -/
def NesPPU.write_to_scroll (p : NesPPU) (value : Nat) : NesPPU :=
  { p with scroll := p.scroll.write value }

/-- Controller state, from joypads.rs (`struct Joypad`); the button mask is
kept as a raw byte. -/
structure Joypad where
  strobe : Bool
  button_index : Nat
  button_status : Nat
deriving DecidableEq

/-- Joypad::new. -/
def Joypad.new : Joypad := ⟨false, 0, 0⟩

/-- Joypad::write: bit 0 of the written value becomes the strobe; turning
the strobe on resets the read index. -/
def Joypad.write (j : Joypad) (data : Nat) : Joypad :=
  if data &&& 1 = 1 then { j with strobe := true, button_index := 0 }
  else { j with strobe := false }

/-- Joypad::read: past the eighth button every read returns 1; otherwise the
selected button bit is returned and, when the strobe is off, the index
advances. -/
def Joypad.read (j : Joypad) : Nat × Joypad :=
  if 7 < j.button_index then (1, j)
  else
    let response := (j.button_status &&& (1 <<< j.button_index)) >>> j.button_index
    if j.strobe = false ∧ j.button_index ≤ 7 then
      (response, { j with button_index := j.button_index + 1 })
    else (response, j)

/-- Bus state, from bus.rs (`struct Bus`).  The PRG image is a total byte
function plus its length (0x4000 or 0x8000 for NROM); the host frame
callback is not part of the state — `Bus.tick` instead reports whether the
callback was invoked. -/
structure Bus where
  cpu_vram : Nat → Nat
  prg_rom : Nat → Nat
  prg_len : Nat
  ppu : NesPPU
  cycles : Nat
  joypad1 : Joypad
  joypad2 : Joypad

/-- Bus::tick (bus.rs lines 64-76): accumulate CPU cycles, advance the PPU
by 3x the cycles (u8 multiplication, hence the wrap modulo 256), and invoke
the frame callback exactly when the NMI latch went from none to some.  The
returned Bool records whether the callback was invoked. -/
def Bus.tick (b : Bus) (cycles : Nat) : Bus × Bool :=
  let b0 : Bus := { b with cycles := b.cycles + cycles }
  let nmi_before := b0.ppu.nmi_interrupt.isSome
  let b1 : Bus := { b0 with ppu := (b0.ppu.tick ((cycles * 3) % 256)).1 }
  let nmi_after := b1.ppu.nmi_interrupt.isSome
  (b1, !nmi_before && nmi_after)

/-- Bus::poll_nmi_status: `Option::take` on the NMI latch. -/
def Bus.poll_nmi_status (b : Bus) : Option Nat × Bus :=
  (b.ppu.nmi_interrupt, { b with ppu := { b.ppu with nmi_interrupt := none } })

/-- Bus::read_prg_rom: map $8000-$FFFF onto the PRG image, mirroring the
upper half down when the image is only 16 KiB. -/
def Bus.read_prg_rom (b : Bus) (addr : Nat) : Nat :=
  let a := addr - 0x8000
  let a := if b.prg_len = 0x4000 ∧ 0x4000 ≤ a then a % 0x4000 else a
  b.prg_rom a

/-- Bus::mem_read (bus.rs lines 95-136).  Reads of the write-only PPU
registers ($2000/01/03/05/06) and of $4014 panic (modelled as `none`);
$2008-$3FFF recurses on the address masked down to $2000-$2007; $4000-$4015
reads 0 (APU ignored); $4016/$4017 are the controllers; $8000-$FFFF is PRG;
anything else is logged and reads 0. -/
def Bus.mem_read (b : Bus) (addr : Nat) : Option (Nat × Bus) :=
  if addr ≤ 0x1FFF then
    some (b.cpu_vram (addr &&& 0b0000011111111111), b)
  else if addr = 0x2000 ∨ addr = 0x2001 ∨ addr = 0x2003 ∨ addr = 0x2005 ∨
          addr = 0x2006 ∨ addr = 0x4014 then
    none
  else if addr = 0x2002 then
    let r := b.ppu.read_status
    some (r.1, { b with ppu := r.2 })
  else if addr = 0x2004 then
    some (b.ppu.read_oam_data, b)
  else if addr = 0x2007 then
    match b.ppu.read_data with
    | none => none
    | some (d, p) => some (d, { b with ppu := p })
  else if h : 0x2008 ≤ addr ∧ addr ≤ 0x3FFF then
    Bus.mem_read b (addr &&& 0b0010000000000111)
  else if addr ≤ 0x4015 then
    some (0, b)
  else if addr = 0x4016 then
    let r := b.joypad1.read
    some (r.1, { b with joypad1 := r.2 })
  else if addr = 0x4017 then
    let r := b.joypad2.read
    some (r.1, { b with joypad2 := r.2 })
  else if 0x8000 ≤ addr ∧ addr ≤ 0xFFFF then
    some (b.read_prg_rom addr, b)
  else
    some (0, b)
termination_by addr
decreasing_by
  have hle : addr &&& 0b0010000000000111 ≤ 0b0010000000000111 := Nat.and_le_right
  omega

/-- Trait default Mem::mem_read_u16 on the bus: two little-endian byte
reads at `pos` and `pos + 1`. -/
def Bus.mem_read_u16 (b : Bus) (pos : Nat) : Option (Nat × Bus) :=
  match b.mem_read pos with
  | none => none
  | some (lo, b1) =>
    match b1.mem_read (pos + 1) with
    | none => none
    | some (hi, b2) => some ((hi <<< 8) ||| lo, b2)

/-- Bus::mem_write (bus.rs lines 138-231).  RAM writes go through the
mirror mask; $2000-$2007 hit the PPU registers ($2002 panics); $2008-$3FFF
recurses on the masked address; $4014 performs the 256-byte OAM DMA (each
byte fetched through `mem_read`); $4016 strobes both controllers; APU and
unmapped ranges are discarded. -/
def Bus.mem_write (b : Bus) (addr data : Nat) : Option Bus :=
  if addr ≤ 0x1FFF then
    some { b with cpu_vram := store b.cpu_vram (addr &&& 0b11111111111) data }
  else if addr = 0x2000 then
    some { b with ppu := b.ppu.write_to_ctrl data }
  else if addr = 0x2001 then
    some { b with ppu := b.ppu.write_to_mask data }
  else if addr = 0x2002 then
    none
  else if addr = 0x2003 then
    some { b with ppu := b.ppu.write_to_oam_addr data }
  else if addr = 0x2004 then
    some { b with ppu := b.ppu.write_to_oam_data data }
  else if addr = 0x2005 then
    some { b with ppu := b.ppu.write_to_scroll data }
  else if addr = 0x2006 then
    some { b with ppu := b.ppu.write_to_ppu_addr data }
  else if addr = 0x2007 then
    match b.ppu.write_to_data data with
    | none => none
    | some p => some { b with ppu := p }
  else if h : 0x2008 ≤ addr ∧ addr ≤ 0x3FFF then
    Bus.mem_write b (addr &&& 0b0010000000000111) data
  else if addr ≤ 0x4013 ∨ addr = 0x4015 then
    some b
  else if addr = 0x4014 then
    let hi := (data % 256) <<< 8
    let step := (List.range 256).foldlM
      (fun (acc : (Nat → Nat) × Bus) i =>
        match acc.2.mem_read (hi + i) with
        | none => none
        | some (v, b2) => some (store acc.1 i v, b2))
      ((fun _ => 0 : Nat → Nat), b)
    match step with
    | none => none
    | some (buffer, b2) => some { b2 with ppu := b2.ppu.write_oam_dma buffer }
  else if addr = 0x4016 then
    some { b with joypad1 := b.joypad1.write data, joypad2 := b.joypad2.write data }
  else if addr = 0x4017 then
    some b
  else
    some b
termination_by addr
decreasing_by
  have hle : addr &&& 0b0010000000000111 ≤ 0b0010000000000111 := Nat.and_le_right
  omega

/-- Iterated `Bus.tick` over a list of per-instruction cycle counts,
counting how many times the frame callback was invoked. -/
def Bus.runTicks (b : Bus) : List Nat → Bus × Nat
  | [] => (b, 0)
  | c :: cs =>
    let r := b.tick c
    let rest := r.1.runTicks cs
    (rest.1, (if r.2 then 1 else 0) + rest.2)

/-- Number of rising edges of the NMI latch (none before the tick, some
after it) along the same trajectory of ticks. -/
def Bus.countRisingEdges (b : Bus) : List Nat → Nat
  | [] => 0
  | c :: cs =>
    let b1 := (b.tick c).1
    (if b.ppu.nmi_interrupt = none ∧ b1.ppu.nmi_interrupt.isSome then 1 else 0) +
      b1.countRisingEdges cs

/-- CPU state, from cpu.rs (`struct CPU`): registers plus the owned bus. -/
structure CPUState where
  register_a : Nat
  register_x : Nat
  register_y : Nat
  stack_pointer : Nat
  status : Nat
  program_counter : Nat
  bus : Bus

/-- Mem::mem_read for the CPU: delegate to the bus. -/
def CPUState.mem_read (c : CPUState) (addr : Nat) : Option (Nat × CPUState) :=
  match c.bus.mem_read addr with
  | none => none
  | some (v, b) => some (v, { c with bus := b })

/-- Mem::mem_write for the CPU: delegate to the bus. -/
def CPUState.mem_write (c : CPUState) (addr data : Nat) : Option CPUState :=
  match c.bus.mem_write addr data with
  | none => none
  | some b => some { c with bus := b }

/-- Mem::mem_read_u16 for the CPU: little-endian pair of byte reads. -/
def CPUState.mem_read_u16 (c : CPUState) (pos : Nat) : Option (Nat × CPUState) :=
  match c.bus.mem_read_u16 pos with
  | none => none
  | some (v, b) => some (v, { c with bus := b })

/-- CPU::reset (cpu.rs lines 125-133): A, X and the status byte are reset,
S becomes $FD, and PC is loaded from the little-endian reset vector at
$FFFC — the Y register is not touched. -/
def CPUState.reset (c : CPUState) : Option CPUState :=
  let c1 : CPUState :=
    { c with register_a := 0, register_x := 0, status := 0b100100, stack_pointer := 0xfd }
  match c1.mem_read_u16 0xFFFC with
  | none => none
  | some (pc, c2) => some { c2 with program_counter := pc }

/-- CPU::update_zero_and_negative_flags: Z from `result == 0`, N from bit 7
of the result. -/
def CPUState.update_zero_and_negative_flags (c : CPUState) (result : Nat) : CPUState :=
  let c1 : CPUState :=
    if result = 0 then { c with status := c.status ||| 0b00000010 }
    else { c with status := c.status &&& 0b11111101 }
  if result &&& 0b10000000 ≠ 0 then { c1 with status := c1.status ||| 0b10000000 }
  else { c1 with status := c1.status &&& 0b01111111 }

/-- CPU::plus_minus (cpu.rs lines 1008-1035): the shared ADC/SBC ALU.
`c6` recovers the carry-in from status bit 0 via `(status << 7) >> 7` in
u8 arithmetic; the 9-bit sum sets carry; the signed-overflow test is
`(data ^ result) & (result ^ A) & 0x80 != 0`; the truncated sum lands in
A, and Z/N are updated from it. -/
def CPUState.plus_minus (c : CPUState) (data : Nat) : CPUState :=
  let c6 := ((c.status <<< 7) % 256) >>> 7
  let sum := c.register_a + data + c6
  let c1 : CPUState :=
    if 0xff < sum then { c with status := c.status ||| 0b00000001 }
    else { c with status := c.status &&& 0b11111110 }
  let result := sum % 256
  let c2 : CPUState :=
    if (data ^^^ result) &&& (result ^^^ c1.register_a) &&& 0x80 ≠ 0 then
      { c1 with status := c1.status ||| 0b01000000 }
    else
      { c1 with status := c1.status &&& 0b10111111 }
  let c3 : CPUState := { c2 with register_a := result }
  c3.update_zero_and_negative_flags c3.register_a
/-- ALU body of CPU::sbc (cpu.rs lines 1047-1057): the fetched operand is
bitwise negated (`!value` on u8, i.e. xor with $FF) and handed to
`plus_minus`; the addressing-mode fetch and page-cross tick around it do
not touch the arithmetic. -/
def CPUState.sbc_operand (c : CPUState) (value : Nat) : CPUState :=
  c.plus_minus (value ^^^ 0xff)

/-- Checked u8 decrement: `x -= 1` in Rust panics on underflow (the source
comments on pha/pla state this is the intended encoding), modelled as
`none` at 0. -/
def checkedDec (n : Nat) : Option Nat :=
  if n = 0 then none else some (n - 1)

/-- CPU::pha (cpu.rs lines 912-919): push A at $0100+S, then decrement S
with the checked (panicking) u8 subtraction. -/
def CPUState.pha (c : CPUState) : Option CPUState :=
  let copy := c.register_a
  let addr := 0x0100 + c.stack_pointer
  match c.mem_write addr copy with
  | none => none
  | some c1 =>
    match checkedDec c1.stack_pointer with
    | none => none
    | some sp => some { c1 with stack_pointer := sp }

/-- CPU::php (cpu.rs lines 921-928): push the status byte with the B flag
set, then decrement S. -/
def CPUState.php (c : CPUState) : Option CPUState :=
  let copy := c.status ||| 0b00010000
  let addr := 0x0100 + c.stack_pointer
  match c.mem_write addr copy with
  | none => none
  | some c1 =>
    match checkedDec c1.stack_pointer with
    | none => none
    | some sp => some { c1 with stack_pointer := sp }

/-- Stack-push prefix of CPU::jsr (cpu.rs lines 955-968): push the high
then the low byte of PC+1, decrementing S after each write.  The operand
fetch and PC load that follow in jsr are not part of the push sequence. -/
def CPUState.jsr_pushes (c : CPUState) : Option CPUState :=
  let stack_addr := 0x0100 + c.stack_pointer
  let future_pc := c.program_counter + 1
  let hi := (future_pc >>> 8) % 256
  let lo := future_pc &&& 0xff
  match c.mem_write stack_addr hi with
  | none => none
  | some c1 =>
    match checkedDec c1.stack_pointer with
    | none => none
    | some sp1 =>
      let c2 : CPUState := { c1 with stack_pointer := sp1 }
      match c2.mem_write (stack_addr - 1) lo with
      | none => none
      | some c3 =>
        match checkedDec c3.stack_pointer with
        | none => none
        | some sp2 => some { c3 with stack_pointer := sp2 }

/-- CPU::interrupt for the NMI entry (cpu.rs lines 1166-1194): push PC high
and low bytes, push a copy of P with B cleared and bit 5 set, set the I
flag, let the bus advance by the interrupt's 2 CPU cycles, and load PC
from the $FFFA vector. -/
def CPUState.interrupt_nmi (c : CPUState) : Option CPUState :=
  let hi := (c.program_counter >>> 8) % 256
  let lo := c.program_counter &&& 0xff
  match c.mem_write (0x0100 + c.stack_pointer) hi with
  | none => none
  | some c1 =>
    match checkedDec c1.stack_pointer with
    | none => none
    | some sp1 =>
      let c2 : CPUState := { c1 with stack_pointer := sp1 }
      match c2.mem_write (0x0100 + c2.stack_pointer) lo with
      | none => none
      | some c3 =>
        match checkedDec c3.stack_pointer with
        | none => none
        | some sp2 =>
          let c4 : CPUState := { c3 with stack_pointer := sp2 }
          let flag := (c4.status &&& 0b11101111) ||| 0b00100000
          match c4.mem_write (0x0100 + c4.stack_pointer) flag with
          | none => none
          | some c5 =>
            match checkedDec c5.stack_pointer with
            | none => none
            | some sp3 =>
              let c6 : CPUState := { c5 with stack_pointer := sp3 }
              let c7 : CPUState := { c6 with status := c6.status ||| 0b00000100 }
              let c8 : CPUState := { c7 with bus := (c7.bus.tick 2).1 }
              match c8.mem_read_u16 0xfffA with
              | none => none
              | some (pc, c9) => some { c9 with program_counter := pc }

/-- One kind of stack-pushing operation named by the spec's stack
invariant: PHA, PHP, the JSR push pair, the NMI-interrupt push triple. -/
inductive PushOp where
  | PHA
  | PHP
  | JSR
  | NMI
deriving DecidableEq

/-- Number of bytes a push operation deposits on the stack. -/
def PushOp.bytes : PushOp → Nat
  | .PHA => 1
  | .PHP => 1
  | .JSR => 2
  | .NMI => 3

/-- Execute one push operation on the CPU state. -/
def PushOp.exec : PushOp → CPUState → Option CPUState
  | .PHA => CPUState.pha
  | .PHP => CPUState.php
  | .JSR => CPUState.jsr_pushes
  | .NMI => CPUState.interrupt_nmi

/-- Execute a sequence of push operations, failing as soon as one fails. -/
def execPushes : List PushOp → CPUState → Option CPUState
  | [], c => some c
  | op :: ops, c =>
    match op.exec c with
    | none => none
    | some c1 => execPushes ops c1

/-- Total bytes pushed by a sequence of push operations. -/
def pushBytes (ops : List PushOp) : Nat :=
  (ops.map PushOp.bytes).sum

/-- Addressing modes, from cpu.rs (`enum AddressingMode`). -/
inductive AddressingMode where
  | Immediate
  | ZeroPage
  | ZeroPage_X
  | ZeroPage_Y
  | Absolute
  | Absolute_X
  | Absolute_Y
  | Indirect_X
  | Indirect_Y
  | NoneAddressing
deriving DecidableEq

/-- One opcode-table entry, from opcodes.rs (`struct OpCode`). -/
structure OpCode where
  code : Nat
  mnemonic : String
  len : Nat
  cyclesBase : Nat
  mode : AddressingMode
deriving DecidableEq

/-- The static opcode table CPU_OPS_CODES (opcodes.rs lines 35-59),
transcribed entry for entry. -/
def CPU_OPS_CODES : List OpCode :=
  [ ⟨0x00, "BRK", 1, 7, AddressingMode.NoneAddressing⟩,
    ⟨0xaa, "TAX", 1, 2, AddressingMode.NoneAddressing⟩,
    ⟨0xe8, "INX", 1, 2, AddressingMode.NoneAddressing⟩,
    ⟨0xa9, "LDA", 2, 2, AddressingMode.Immediate⟩,
    ⟨0xa5, "LDA", 2, 3, AddressingMode.ZeroPage⟩,
    ⟨0xb5, "LDA", 2, 4, AddressingMode.ZeroPage_X⟩,
    ⟨0xad, "LDA", 3, 4, AddressingMode.Absolute⟩,
    ⟨0xbd, "LDA", 3, 4, AddressingMode.Absolute_X⟩,
    ⟨0xb9, "LDA", 3, 4, AddressingMode.Absolute_Y⟩,
    ⟨0xa1, "LDA", 2, 6, AddressingMode.Indirect_X⟩,
    ⟨0xb1, "LDA", 2, 5, AddressingMode.Indirect_Y⟩,
    ⟨0x85, "STA", 2, 3, AddressingMode.ZeroPage⟩,
    ⟨0x95, "STA", 2, 4, AddressingMode.ZeroPage_X⟩,
    ⟨0x8d, "STA", 3, 4, AddressingMode.Absolute⟩,
    ⟨0x9d, "STA", 3, 5, AddressingMode.Absolute_X⟩,
    ⟨0x99, "STA", 3, 5, AddressingMode.Absolute_Y⟩,
    ⟨0x81, "STA", 2, 6, AddressingMode.Indirect_X⟩,
    ⟨0x91, "STA", 2, 6, AddressingMode.Indirect_Y⟩ ]

/-- Lookup in OPCODES_MAP: the HashMap is keyed by the opcode byte over
exactly the entries of CPU_OPS_CODES. -/
def opcodesMapGet (code : Nat) : Option OpCode :=
  CPU_OPS_CODES.find? (fun op => op.code == code)

/-- Every opcode byte carrying a dispatch arm in the `match code` of
CPU::run_with_callback (cpu.rs lines 1241-1458), transcribed arm for arm —
the run loop is prepared to execute each of these. -/
def runDispatchedOpcodes : List Nat :=
  [ 0xa9, 0xa5, 0xb5, 0xad, 0xbd, 0xb9, 0xa1, 0xb1,
    0xa2, 0xa6, 0xb6, 0xae, 0xbe,
    0xa0, 0xa4, 0xb4, 0xac, 0xbc,
    0x85, 0x95, 0x8d, 0x9d, 0x99, 0x81, 0x91,
    0x86, 0x96, 0x8e,
    0x84, 0x94, 0x8c,
    0x29, 0x25, 0x35, 0x2d, 0x3d, 0x39, 0x21, 0x31,
    0xe9, 0xe5, 0xf5, 0xed, 0xfd, 0xf9, 0xe1, 0xf1, 0xeb,
    0x69, 0x65, 0x75, 0x6d, 0x7d, 0x79, 0x61, 0x71,
    0x09, 0x05, 0x15, 0x0d, 0x1d, 0x19, 0x01, 0x11,
    0x49, 0x45, 0x55, 0x4d, 0x5d, 0x59, 0x41, 0x51,
    0x0a, 0x06, 0x16, 0x0e, 0x1e,
    0x2a, 0x26, 0x36, 0x2e, 0x3e,
    0x4a, 0x46, 0x56, 0x4e, 0x5e,
    0x6a, 0x66, 0x76, 0x6e, 0x7e,
    0xc9, 0xc5, 0xd5, 0xcd, 0xdd, 0xd9, 0xc1, 0xd1,
    0xe0, 0xe4, 0xec,
    0xc0, 0xc4, 0xcc,
    0x40, 0x20, 0x60,
    0xd0, 0x90, 0xb0, 0xf0, 0x30, 0x10, 0x50, 0x70,
    0xaa, 0xa8, 0x8a, 0x98, 0xba, 0x9a,
    0xe6, 0xf6, 0xee, 0xfe,
    0xc6, 0xd6, 0xce, 0xde,
    0x24, 0x2c,
    0x4c, 0x6c,
    0x48, 0x08, 0x68, 0x28,
    0xe8, 0xca, 0xc8, 0x88,
    0x38, 0x18, 0x78, 0x58, 0xf8, 0xd8, 0xb8,
    0xea, 0x1a, 0x3a, 0x5a, 0x7a, 0xda, 0xfa,
    0x02, 0x12, 0x22, 0x32, 0x42, 0x52, 0x62, 0x72, 0x92, 0xb2, 0xd2, 0xf2,
    0x04, 0x44, 0x64, 0x14, 0x34, 0x54, 0x74, 0xd4, 0xf4, 0x0c, 0x1c,
    0x3c, 0x5c, 0x7c, 0xdc, 0xfc, 0x80, 0x82, 0x89, 0xc2, 0xe2,
    0xc7, 0xd7, 0xcf, 0xdf, 0xdb, 0xd3, 0xc3,
    0x27, 0x37, 0x2f, 0x3f, 0x3b, 0x33, 0x23,
    0x07, 0x17, 0x0f, 0x1f, 0x1b, 0x03, 0x13,
    0x47, 0x57, 0x4f, 0x5f, 0x5b, 0x43, 0x53,
    0xcb, 0x6b, 0x0b, 0x2b, 0x4b,
    0x67, 0x77, 0x6f, 0x7f, 0x7b, 0x63, 0x73,
    0xe7, 0xf7, 0xef, 0xff, 0xfb, 0xe3, 0xf3,
    0xa7, 0xb7, 0xaf, 0xbf, 0xa3, 0xb3,
    0x87, 0x97, 0x8f, 0x83,
    0x00 ]

/-- Video frame, from render/frame.rs; the pixel buffer is a total byte
function whose live length is WIDTH * HIGHT * 3 (as allocated by
Frame::new and read back by `self.data.len()` in set_pixel). -/
structure Frame where
  data : Nat → Nat

/-- Frame::WIDTH. -/
def Frame.WIDTH : Nat := 256

/-- Frame::HIGHT (sic). -/
def Frame.HIGHT : Nat := 240

/-- Length of the buffer allocated by Frame::new. -/
def Frame.dataLen : Nat := Frame.WIDTH * Frame.HIGHT * 3

/-- Frame::set_pixel (render/frame.rs lines 15-25): compute the flat base
offset `y * 3 * WIDTH + x * 3` and write the three RGB bytes, guarded only
by the whole-buffer bound `base + 2 < len`.  The offset arithmetic is
usize: each multiplication and addition is overflow-checked (the same
checked debug-profile semantics this file uses for the CPU's u8 `-= 1`),
and an overflowing step panics, modelled as `none`. -/
def Frame.set_pixel (f : Frame) (x y : Nat) (rgb : Nat × Nat × Nat) : Option Frame :=
  if y * 3 < 2 ^ 64 then
    if y * 3 * Frame.WIDTH < 2 ^ 64 then
      if x * 3 < 2 ^ 64 then
        if y * 3 * Frame.WIDTH + x * 3 < 2 ^ 64 then
          let base := y * 3 * Frame.WIDTH + x * 3
          if base + 2 < 2 ^ 64 then
            if base + 2 < Frame.dataLen then
              let d := store (store (store f.data base rgb.1) (base + 1) rgb.2.1) (base + 2) rgb.2.2
              some { f with data := d }
            else some f
          else none
        else none
      else none
    else none
  else none

/-- All-zero CHR image, for concrete test states. -/
def sampleChr : Nat → Nat := fun _ => 0

/-- Freshly constructed PPU with horizontal mirroring (NesPPU::new_empty_rom
up to CHR length). -/
def samplePPU : NesPPU := NesPPU.new sampleChr Mirroring.HORIZONTAL

/-- Concrete PPU for the C2 witness: one dot before the scanline-241
crossing, NMI enabled in CTRL. -/
def ppuBeforeVblank : NesPPU :=
  { samplePPU with cycles := 340, scanline := 240, ctrl := 0x80 }

/-- Concrete PPU for the C5 counterexample: ADDR points at $3F00, VRAM is
filled with $66, the read buffer holds 0. -/
def ppuPaletteRead : NesPPU :=
  { samplePPU with vram := fun _ => 0x66, addr := ⟨0x3f, 0x00, true⟩ }

/-- Concrete bus with zeroed RAM and PRG, used for concrete CPU states. -/
def sampleBus : Bus :=
  { cpu_vram := fun _ => 0
    prg_rom := fun _ => 0
    prg_len := 0x8000
    ppu := samplePPU
    cycles := 0
    joypad1 := Joypad.new
    joypad2 := Joypad.new }

/-- Concrete CPU state at the post-reset register values. -/
def sampleCPU : CPUState :=
  { register_a := 0
    register_x := 0
    register_y := 0
    stack_pointer := 0xfd
    status := 0b100100
    program_counter := 0x8000
    bus := sampleBus }

/-- Concrete CPU state with the stack pointer at 0 (stack page exhausted),
for the C7 counterexample. -/
def cpuSpZero : CPUState := { sampleCPU with stack_pointer := 0 }

/-- Concrete CPU state with a non-zero Y register, for the C8
counterexample. -/
def cpuWithY : CPUState := { sampleCPU with register_y := 7 }

/-- All-zero video frame, as allocated by Frame::new. -/
def zeroFrame : Frame := ⟨fun _ => 0⟩

/-! Theorems.  Helper lemmas come first; each claim then gets exactly one
designated theorem (plus a witness or counterexample where required). -/

theorem tick_no_cross (p : NesPPU) (c : Nat) (h : p.cycles + c < 341) :
    p.tick c = ({ p with cycles := p.cycles + c }, false) := by
  unfold NesPPU.tick
  dsimp only
  rw [if_neg (by omega)]

theorem tick_cross_plain (p : NesPPU) (c : Nat) (h1 : 341 ≤ p.cycles + c)
    (h2 : p.scanline + 1 ≠ 241) (h3 : p.scanline + 1 < 262) :
    p.tick c = ({ p with cycles := p.cycles + c - 341, scanline := p.scanline + 1 }, false) := by
  unfold NesPPU.tick
  dsimp only
  rw [if_pos (show 341 ≤ p.cycles + c by omega)]
  rw [if_neg h2]
  dsimp only
  rw [if_neg (show ¬ 262 ≤ p.scanline + 1 by omega)]

theorem tick_cross_241 (p : NesPPU) (c : Nat) (h1 : 341 ≤ p.cycles + c)
    (h2 : p.scanline + 1 = 241) :
    p.tick c = ({ p with
      cycles := p.cycles + c - 341
      scanline := p.scanline + 1
      status := StatusRegister.set_sprite_zero_hit
        (StatusRegister.set_vblank_status p.status true) false
      nmi_interrupt := if ControlRegister.generate_vblank_nmi p.ctrl then some 1
        else p.nmi_interrupt }, false) := by
  unfold NesPPU.tick
  dsimp only
  rw [if_pos (show 341 ≤ p.cycles + c by omega)]
  rw [if_pos h2]
  cases hb : ControlRegister.generate_vblank_nmi p.ctrl
  · simp only [hb, Bool.false_eq_true, reduceIte]
    rw [if_neg (show ¬ 262 ≤ p.scanline + 1 by omega)]
  · simp only [hb, reduceIte]
    rw [if_neg (show ¬ 262 ≤ p.scanline + 1 by omega)]

theorem tick_cross_wrap (p : NesPPU) (c : Nat) (h1 : 341 ≤ p.cycles + c)
    (h2 : 262 ≤ p.scanline + 1) :
    p.tick c = ({ p with
      cycles := p.cycles + c - 341
      scanline := 0
      nmi_interrupt := none
      status := StatusRegister.reset_vblank_status
        (StatusRegister.set_sprite_zero_hit p.status false) }, true) := by
  unfold NesPPU.tick
  dsimp only
  rw [if_pos (show 341 ≤ p.cycles + c by omega)]
  rw [if_neg (show ¬ p.scanline + 1 = 241 by omega)]
  dsimp only
  rw [if_pos (show 262 ≤ p.scanline + 1 by omega)]

/-- C2.  PPU tick: the dot counter accumulates the argument; crossing 341
dots reduces the counter by 341 and advances the scanline; entering
scanline 241 sets the vertical-blank bit and latches `nmi_interrupt` iff
CTRL's NMI-enable bit is set; reaching scanline 262 resets the scanline and
clears NMI, sprite-zero-hit and vertical-blank; tick returns true exactly
on that wrap. -/
theorem ppu_tick_spec (p : NesPPU) (c : Nat) :
    (p.cycles + c < 341 →
      p.tick c = ({ p with cycles := p.cycles + c }, false)) ∧
    (341 ≤ p.cycles + c → p.scanline + 1 = 241 →
      p.tick c = ({ p with
        cycles := p.cycles + c - 341
        scanline := p.scanline + 1
        status := StatusRegister.set_sprite_zero_hit
          (StatusRegister.set_vblank_status p.status true) false
        nmi_interrupt := if ControlRegister.generate_vblank_nmi p.ctrl then some 1
          else p.nmi_interrupt }, false)) ∧
    (341 ≤ p.cycles + c → p.scanline + 1 = 241 → p.nmi_interrupt = none →
      ((((p.tick c).1.nmi_interrupt).isSome = true) ↔
        ControlRegister.generate_vblank_nmi p.ctrl = true)) ∧
    (341 ≤ p.cycles + c → p.scanline + 1 ≠ 241 → p.scanline + 1 < 262 →
      p.tick c =
        ({ p with cycles := p.cycles + c - 341, scanline := p.scanline + 1 }, false)) ∧
    (341 ≤ p.cycles + c → 262 ≤ p.scanline + 1 →
      p.tick c = ({ p with
        cycles := p.cycles + c - 341
        scanline := 0
        nmi_interrupt := none
        status := StatusRegister.reset_vblank_status
          (StatusRegister.set_sprite_zero_hit p.status false) }, true)) ∧
    ((p.tick c).2 = true ↔ (341 ≤ p.cycles + c ∧ 262 ≤ p.scanline + 1)) := by
  refine ⟨tick_no_cross p c, tick_cross_241 p c, ?_, tick_cross_plain p c,
    tick_cross_wrap p c, ?_⟩
  · intro h1 h2 hnone
    rw [tick_cross_241 p c h1 h2]
    cases hb : ControlRegister.generate_vblank_nmi p.ctrl <;> simp [hb, hnone]
  · constructor
    · intro hfired
      by_contra hcon
      rw [Decidable.not_and_iff_or_not] at hcon
      rcases hcon with hc | hc
      · rw [tick_no_cross p c (by omega)] at hfired
        simp at hfired
      · by_cases h1 : 341 ≤ p.cycles + c
        · by_cases h2 : p.scanline + 1 = 241
          · rw [tick_cross_241 p c h1 h2] at hfired
            simp at hfired
          · rw [tick_cross_plain p c h1 h2 (by omega)] at hfired
            simp at hfired
        · rw [tick_no_cross p c (by omega)] at hfired
          simp at hfired
    · rintro ⟨h1, h2⟩
      rw [tick_cross_wrap p c h1 h2]

/-- Witness for C2 at a concrete input: one dot before scanline 241 with
NMI enabled in CTRL, ticking by one CPU cycle latches the NMI. -/
theorem ppu_tick_spec_witness :
    ((ppuBeforeVblank.tick 1).1.nmi_interrupt).isSome = true := by
  have h := (ppu_tick_spec ppuBeforeVblank 1).2.2.1 (by decide) (by decide) (by decide)
  rw [h]
  decide

theorem bus_tick_ppu (b : Bus) (c : Nat) :
    (b.tick c).1.ppu = (b.ppu.tick ((c * 3) % 256)).1 := by
  unfold Bus.tick
  dsimp only

theorem bus_tick_fired_iff (b : Bus) (c : Nat) :
    (b.tick c).2 = true ↔
      (b.ppu.nmi_interrupt = none ∧ ((b.tick c).1.ppu.nmi_interrupt).isSome = true) := by
  unfold Bus.tick
  dsimp only
  cases hb : b.ppu.nmi_interrupt <;> simp [hb]

/-- C3.  The frame callback inside Bus::tick fires exactly on a rising edge
of the PPU NMI latch (none before the tick, some after it) and never
otherwise; over any run the number of callback invocations equals the
number of rising edges; and the CPU-side consumption point,
`poll_nmi_status`, takes the latch and clears it. -/
theorem bus_tick_callback_edge (b : Bus) (c : Nat) (cs : List Nat) :
    ((b.tick c).2 = true ↔
      (b.ppu.nmi_interrupt = none ∧ ((b.tick c).1.ppu.nmi_interrupt).isSome = true)) ∧
    ((b.tick c).1.ppu = (b.ppu.tick ((c * 3) % 256)).1) ∧
    ((b.runTicks cs).2 = b.countRisingEdges cs) ∧
    ((b.poll_nmi_status).1 = b.ppu.nmi_interrupt ∧
      (b.poll_nmi_status).2.ppu.nmi_interrupt = none) := by
  refine ⟨bus_tick_fired_iff b c, bus_tick_ppu b c, ?_, rfl, rfl⟩
  induction cs generalizing b with
  | nil => rfl
  | cons d ds ih =>
    show (if (b.tick d).2 then 1 else 0) + ((b.tick d).1.runTicks ds).2 = _
    rw [Bus.countRisingEdges, ih ((b.tick d).1)]
    have h := bus_tick_fired_iff b d
    by_cases hf : (b.tick d).2 = true
    · rw [if_pos hf, if_pos (h.mp hf)]
    · rw [if_neg hf, if_neg (fun hc => hf (h.mpr hc))]

theorem status_shift_carry (st : Nat) : ((st <<< 7) % 256) >>> 7 = st % 2 := by
  rw [Nat.shiftLeft_eq, Nat.shiftRight_eq_div_pow]
  have h : st * 2 ^ 7 % 256 = st % 2 * 2 ^ 7 := by
    have := Nat.mul_mod_mul_right (2 ^ 7) st 2
    norm_num at this ⊢
    omega
  rw [h, Nat.mul_div_cancel _ (by norm_num)]

theorem and128_ne_zero_iff (r : Nat) : (r &&& 128 ≠ 0) ↔ r.testBit 7 = true := by
  have h := Nat.and_two_pow r 7
  norm_num at h
  rw [h]
  cases hr : r.testBit 7 <;> simp

/-- C4.  The shared ADC/SBC ALU: the new accumulator is
`(A + M + C) mod 256`; the carry out is `A + M + C ≥ 256`; the overflow
bit is `((M ^ A') & (A ^ A') & 0x80) ≠ 0`; Z and N are set from the new
accumulator; and the sbc body is exactly the ALU applied to the bitwise
negation of the operand. -/
theorem adc_sbc_alu_spec (c : CPUState) (m : Nat) :
    ((c.plus_minus m).register_a = (c.register_a + m + c.status % 2) % 256) ∧
    ((c.plus_minus m).status.testBit 0
        = decide (256 ≤ c.register_a + m + c.status % 2)) ∧
    ((c.plus_minus m).status.testBit 6
        = decide ((m ^^^ (c.register_a + m + c.status % 2) % 256) &&&
            (c.register_a ^^^ (c.register_a + m + c.status % 2) % 256) &&& 0x80 ≠ 0)) ∧
    ((c.plus_minus m).status.testBit 1
        = decide ((c.register_a + m + c.status % 2) % 256 = 0)) ∧
    ((c.plus_minus m).status.testBit 7
        = ((c.register_a + m + c.status % 2) % 256).testBit 7) ∧
    (c.sbc_operand m = c.plus_minus (m ^^^ 0xff)) := by
  refine ⟨?_, ?_, ?_, ?_, ?_, rfl⟩
  all_goals unfold CPUState.plus_minus CPUState.update_zero_and_negative_flags
  all_goals dsimp only
  all_goals simp only [status_shift_carry]
  · split_ifs <;> rfl
  · split_ifs <;>
      simp_all [Nat.testBit_or, Nat.testBit_and, Nat.lt_iff_add_one_le,
        show Nat.testBit 1 0 = true from by decide,
        show Nat.testBit 0xfe 0 = false from by decide,
        show Nat.testBit 0x40 0 = false from by decide,
        show Nat.testBit 0xbf 0 = true from by decide,
        show Nat.testBit 2 0 = false from by decide,
        show Nat.testBit 0xfd 0 = true from by decide,
        show Nat.testBit 0x80 0 = false from by decide,
        show Nat.testBit 0x7f 0 = true from by decide]
  · split_ifs <;>
      simp_all [Nat.testBit_or, Nat.testBit_and, Nat.xor_comm,
        show Nat.testBit 1 6 = false from by decide,
        show Nat.testBit 0xfe 6 = true from by decide,
        show Nat.testBit 0x40 6 = true from by decide,
        show Nat.testBit 0xbf 6 = false from by decide,
        show Nat.testBit 2 6 = false from by decide,
        show Nat.testBit 0xfd 6 = true from by decide,
        show Nat.testBit 0x80 6 = false from by decide,
        show Nat.testBit 0x7f 6 = true from by decide]
  · split_ifs <;>
      simp_all [Nat.testBit_or, Nat.testBit_and,
        show Nat.testBit 1 1 = false from by decide,
        show Nat.testBit 0xfe 1 = true from by decide,
        show Nat.testBit 0x40 1 = false from by decide,
        show Nat.testBit 0xbf 1 = true from by decide,
        show Nat.testBit 2 1 = true from by decide,
        show Nat.testBit 0xfd 1 = false from by decide,
        show Nat.testBit 0x80 1 = false from by decide,
        show Nat.testBit 0x7f 1 = true from by decide]
  · split_ifs <;>
      simp_all [Nat.testBit_or, Nat.testBit_and, and128_ne_zero_iff,
        show Nat.testBit 1 7 = false from by decide,
        show Nat.testBit 0xfe 7 = true from by decide,
        show Nat.testBit 0x40 7 = false from by decide,
        show Nat.testBit 0xbf 7 = true from by decide,
        show Nat.testBit 2 7 = false from by decide,
        show Nat.testBit 0xfd 7 = true from by decide,
        show Nat.testBit 0x80 7 = true from by decide,
        show Nat.testBit 0x7f 7 = false from by decide]

theorem addr_get_eq (r : AddrRegister) (h : r.lo < 256) : r.get = r.hi * 256 + r.lo := by
  unfold AddrRegister.get
  have hb : r.lo < 2 ^ 8 := by simpa using h
  calc r.hi <<< 8 ||| r.lo = 2 ^ 8 * r.hi ||| r.lo := by
        rw [Nat.shiftLeft_eq, Nat.mul_comm]
    _ = 2 ^ 8 * r.hi + r.lo := (Nat.mul_add_lt_is_or hb r.hi).symm
    _ = r.hi * 256 + r.lo := by rw [Nat.mul_comm]

theorem addr_get_set (r : AddrRegister) (x : Nat) (hx : x < 65536) : (r.set x).get = x := by
  unfold AddrRegister.set
  rw [addr_get_eq]
  · dsimp only
    rw [Nat.shiftRight_eq_div_pow,
      show (0xff : Nat) = 2 ^ 8 - 1 from by norm_num, Nat.and_pow_two_sub_one_eq_mod]
    have hdiv : x / 2 ^ 8 < 256 := by
      rw [Nat.div_lt_iff_lt_mul (by norm_num)]
      omega
    rw [Nat.mod_eq_of_lt hdiv]
    have := Nat.div_add_mod x (2 ^ 8)
    norm_num at this ⊢
    omega
  · dsimp only
    rw [show (0xff : Nat) = 2 ^ 8 - 1 from by norm_num, Nat.and_pow_two_sub_one_eq_mod]
    have := Nat.mod_lt x (y := 2 ^ 8) (by norm_num)
    norm_num at this
    omega

theorem addr_mask_step (r : AddrRegister) (h : r.get < 65536) :
    (if r.get > 0x3fff then r.set (r.get &&& 0b11111111111111) else r).get
      = r.get % 0x4000 := by
  by_cases hx : r.get > 0x3fff
  · have hb : r.get &&& 0b11111111111111 < 65536 := by
      have hr := Nat.and_le_right (n := r.get) (m := 0b11111111111111)
      omega
    rw [if_pos hx, addr_get_set _ _ hb,
      show (0b11111111111111 : Nat) = 2 ^ 14 - 1 from by norm_num,
      Nat.and_pow_two_sub_one_eq_mod]
  · rw [if_neg hx, Nat.mod_eq_of_lt (by omega)]

theorem addr_get_increment (r : AddrRegister) (inc : Nat) (hhi : r.hi < 256)
    (hlo : r.lo < 256) (h1 : 0 < inc) (h2 : inc ≤ 32) :
    (r.increment inc).get = (r.get + inc) % 0x4000 := by
  have hget : r.get = r.hi * 256 + r.lo := addr_get_eq r hlo
  unfold AddrRegister.increment
  dsimp only
  by_cases hc : r.lo > (r.lo + inc) % 256
  · rw [if_pos hc]
    have hwrap : 256 ≤ r.lo + inc := by
      rcases Nat.lt_or_ge (r.lo + inc) 256 with hx | hx
      · rw [Nat.mod_eq_of_lt hx] at hc; omega
      · exact hx
    rw [addr_mask_step]
    · rw [addr_get_eq _ (by dsimp only; omega)]
      dsimp only
      omega
    · rw [addr_get_eq _ (by dsimp only; omega)]
      dsimp only
      omega
  · rw [if_neg hc]
    have hnl : (r.lo + inc) % 256 = r.lo + inc := by
      rcases Nat.lt_or_ge (r.lo + inc) 256 with hx | hx
      · exact Nat.mod_eq_of_lt hx
      · exfalso
        have hmod : (r.lo + inc) % 256 = r.lo + inc - 256 := by omega
        omega
    rw [addr_mask_step]
    · rw [addr_get_eq _ (by dsimp only; omega)]
      dsimp only
      omega
    · rw [addr_get_eq _ (by dsimp only; omega)]
      dsimp only
      omega

theorem incremented_get (p : NesPPU) (hhi : p.addr.hi < 256) (hlo : p.addr.lo < 256) :
    (p.increment_vram_addr).addr.get
      = (p.addr.get + ControlRegister.vram_addr_increment p.ctrl) % 0x4000 := by
  unfold NesPPU.increment_vram_addr ControlRegister.vram_addr_increment
  dsimp only
  by_cases hb : p.ctrl.testBit 2 = true
  · rw [if_pos hb]
    exact addr_get_increment _ _ hhi hlo (by norm_num) (by norm_num)
  · rw [if_neg hb]
    exact addr_get_increment _ _ hhi hlo (by norm_num) (by norm_num)

theorem read_data_chr (p : NesPPU) (h : p.addr.get ≤ 0x1fff) :
    p.read_data = some (p.internal_data_buf,
      { p.increment_vram_addr with internal_data_buf := p.chr_rom p.addr.get }) := by
  unfold NesPPU.read_data
  dsimp only
  rw [if_pos h]
  rfl

theorem read_data_vram (p : NesPPU) (h1 : 0x2000 ≤ p.addr.get) (h2 : p.addr.get ≤ 0x2fff) :
    p.read_data = some (p.internal_data_buf,
      { p.increment_vram_addr with
          internal_data_buf := p.vram (p.mirror_vram_addr p.addr.get) }) := by
  unfold NesPPU.read_data
  dsimp only
  rw [if_neg (by omega), if_pos h2]
  rfl

theorem read_data_palette (p : NesPPU) (h1 : 0x3f00 ≤ p.addr.get) (h2 : p.addr.get ≤ 0x3f1f) :
    p.read_data = some (p.palette_table (p.addr.get - 0x3f00), p.increment_vram_addr) := by
  unfold NesPPU.read_data
  dsimp only
  rw [if_neg (by omega), if_neg (by omega), if_neg (by omega), if_pos (by omega),
    if_pos (by omega)]
  rfl

/-- C5 (amended).  Data-port reads: CHR and name-table reads ($0000-$2FFF)
return the internal buffer and replace it with the byte at the current
ADDR; palette reads at $3F00-$3F1F bypass the buffer, return the palette
byte directly, and leave the buffer unchanged (no refresh from the
name-table); reads at $3000-$3EFF and $3F20-$3FFF abort; every successful
read post-increments ADDR by 1 or 32 according to CTRL bit 2. -/
theorem read_data_spec (p : NesPPU) (hhi : p.addr.hi < 256) (hlo : p.addr.lo < 256) :
    (p.addr.get ≤ 0x1fff →
      p.read_data = some (p.internal_data_buf,
        { p.increment_vram_addr with internal_data_buf := p.chr_rom p.addr.get })) ∧
    (0x2000 ≤ p.addr.get → p.addr.get ≤ 0x2fff →
      p.read_data = some (p.internal_data_buf,
        { p.increment_vram_addr with
            internal_data_buf := p.vram (p.mirror_vram_addr p.addr.get) })) ∧
    (0x3000 ≤ p.addr.get → p.addr.get ≤ 0x3eff → p.read_data = none) ∧
    (0x3f00 ≤ p.addr.get → p.addr.get ≤ 0x3f1f →
      p.read_data = some (p.palette_table (p.addr.get - 0x3f00), p.increment_vram_addr) ∧
      (p.read_data.map (fun r => r.2.internal_data_buf)) = some p.internal_data_buf) ∧
    (0x3f20 ≤ p.addr.get → p.addr.get ≤ 0x3fff → p.read_data = none) ∧
    (∀ v q, p.read_data = some (v, q) →
      q.addr.get = (p.addr.get + ControlRegister.vram_addr_increment p.ctrl) % 0x4000) := by
  refine ⟨read_data_chr p, read_data_vram p, ?_, ?_, ?_, ?_⟩
  · intro h1 h2
    unfold NesPPU.read_data
    dsimp only
    rw [if_neg (by omega), if_neg (by omega), if_pos (by omega)]
  · intro h1 h2
    refine ⟨read_data_palette p h1 h2, ?_⟩
    rw [read_data_palette p h1 h2]
    rfl
  · intro h1 h2
    unfold NesPPU.read_data
    dsimp only
    rw [if_neg (by omega), if_neg (by omega), if_neg (by omega), if_pos (by omega),
      if_neg (by omega)]
  · intro v q hvq
    have hq : q.addr = (p.increment_vram_addr).addr := by
      unfold NesPPU.read_data at hvq
      dsimp only at hvq
      split_ifs at hvq
      all_goals simp only [Option.some.injEq, Prod.mk.injEq] at hvq
      all_goals (rcases hvq with ⟨h1, rfl⟩; rfl)
    rw [hq, incremented_get p hhi hlo]

/-- Counterexample for C5 as stated: with ADDR at $3F00, a mirrored
name-table byte of $66 and a zero read buffer, the data-port read leaves
the buffer at 0 instead of refreshing it from the name-table byte. -/
theorem read_data_spec_counterexample :
    (ppuPaletteRead.read_data).map (fun r => r.2.internal_data_buf) = some 0 ∧
    ppuPaletteRead.vram (ppuPaletteRead.mirror_vram_addr ppuPaletteRead.addr.get) = 0x66 ∧
    (0 : Nat) ≠ 0x66 := by
  refine ⟨by decide, by decide, by decide⟩

/-- Witness for C5 at a concrete input: the palette read at $3F00 returns
the palette byte and post-increments ADDR. -/
theorem read_data_spec_witness :
    ppuPaletteRead.read_data = some (0, ppuPaletteRead.increment_vram_addr) := by
  have h := ((read_data_spec ppuPaletteRead (by decide) (by decide)).2.2.2.1
    (by decide) (by decide)).1
  rw [h]
  rfl

/-- C6 (amended).  Palette mirroring is one-directional in the code: a
data-port write with ADDR at $3F10/$3F14/$3F18/$3F1C stores the value at
palette cell 0/4/8/12, and a data-port read with ADDR at
$3F00/$3F04/$3F08/$3F0C returns exactly that cell — so the write-at-mirror,
read-at-base direction of the claim holds.  Reads do not alias $3F1x down
(a read at $3F10 returns palette cell $10), so the write-at-base,
read-at-mirror direction fails. -/
theorem palette_mirror_spec (p : NesPPU) (v : Nat) :
    (∀ a, (a = 0x3f10 ∨ a = 0x3f14 ∨ a = 0x3f18 ∨ a = 0x3f1c) → p.addr.get = a →
      ∃ q, p.write_to_data v = some q ∧ q.palette_table (a - 0x3f10) = v) ∧
    (∀ a, (a = 0x3f00 ∨ a = 0x3f04 ∨ a = 0x3f08 ∨ a = 0x3f0c) → p.addr.get = a →
      p.read_data = some (p.palette_table (a - 0x3f00), p.increment_vram_addr)) ∧
    (p.addr.get = 0x3f10 →
      p.read_data = some (p.palette_table 0x10, p.increment_vram_addr)) := by
  refine ⟨?_, ?_, ?_⟩
  · intro a ha hget
    unfold NesPPU.write_to_data
    dsimp only
    rw [hget]
    rcases ha with rfl | rfl | rfl | rfl <;>
      rw [if_neg (by norm_num), if_neg (by norm_num), if_neg (by norm_num),
        if_pos (by norm_num)] <;>
      exact ⟨_, rfl, rfl⟩
  · intro a ha hget
    rcases ha with rfl | rfl | rfl | rfl <;>
      rw [read_data_palette p (by omega) (by omega), hget]
  · intro hget
    rw [read_data_palette p (by omega) (by omega), hget]

/-- Witness for C6 at a concrete input: with ADDR at $3F10, writing $66
through the data port lands in palette cell 0; with ADDR at $3F00, the data
port reads palette cell 0. -/
theorem palette_mirror_spec_witness :
    (∃ q, ({ samplePPU with addr := ⟨0x3f, 0x10, true⟩ } : NesPPU).write_to_data 0x66
        = some q ∧ q.palette_table 0 = 0x66) ∧
    ppuPaletteRead.read_data
      = some (ppuPaletteRead.palette_table 0, ppuPaletteRead.increment_vram_addr) := by
  constructor
  · exact (palette_mirror_spec _ 0x66).1 0x3f10 (by norm_num) (by decide)
  · exact (palette_mirror_spec ppuPaletteRead 0).2.1 0x3f00 (by norm_num) (by decide)

/-- Counterexample for C6 as stated: on a fresh PPU, setting ADDR to $3F00,
writing $66 through the data port, then setting ADDR to $3F10 and reading
the data port returns 0, not $66 — the write at $3F00 is not observable at
$3F10. -/
theorem palette_mirror_spec_counterexample :
    (((samplePPU.write_to_ppu_addr 0x3f).write_to_ppu_addr 0x00).write_to_data 0x66).bind
        (fun p => (((p.write_to_ppu_addr 0x3f).write_to_ppu_addr 0x10).read_data).map
          Prod.fst) = some 0 ∧ (0 : Nat) ≠ 0x66 := by
  exact ⟨by decide, by decide⟩

theorem mem_write_ram (b : Bus) (addr data : Nat) (h : addr ≤ 0x1FFF) :
    b.mem_write addr data
      = some { b with cpu_vram := store b.cpu_vram (addr &&& 0b11111111111) data } := by
  rw [Bus.mem_write]
  rw [if_pos h]

theorem cpu_mem_write_ram (c : CPUState) (addr data : Nat) (h : addr ≤ 0x1FFF) :
    c.mem_write addr data = some { c with
      bus := { c.bus with cpu_vram := store c.bus.cpu_vram (addr &&& 0b11111111111) data } } := by
  unfold CPUState.mem_write
  rw [mem_write_ram _ _ _ h]

theorem mem_read_prg (b : Bus) (addr : Nat) (h1 : 0x8000 ≤ addr) (h2 : addr ≤ 0xFFFF) :
    b.mem_read addr = some (b.read_prg_rom addr, b) := by
  rw [Bus.mem_read]
  rw [if_neg (by omega), if_neg (by omega), if_neg (by omega), if_neg (by omega),
    if_neg (by omega), dif_neg (by omega), if_neg (by omega), if_neg (by omega),
    if_neg (by omega), if_pos (by omega)]

theorem bus_mem_read_u16_prg (b : Bus) (pos : Nat) (h1 : 0x8000 ≤ pos)
    (h2 : pos + 1 ≤ 0xFFFF) :
    b.mem_read_u16 pos
      = some ((b.read_prg_rom (pos + 1) <<< 8) ||| b.read_prg_rom pos, b) := by
  unfold Bus.mem_read_u16
  rw [mem_read_prg _ _ (by omega) (by omega)]
  dsimp only
  rw [mem_read_prg _ _ (by omega) (by omega)]

theorem pha_sp (c : CPUState) (hsp : c.stack_pointer < 256) (h1 : 1 ≤ c.stack_pointer) :
    ∃ c', c.pha = some c' ∧ c'.stack_pointer = c.stack_pointer - 1 := by
  unfold CPUState.pha
  dsimp only
  rw [cpu_mem_write_ram _ _ _ (by omega)]
  dsimp only
  simp only [checkedDec]
  rw [if_neg (by omega)]
  exact ⟨_, rfl, rfl⟩

theorem php_sp (c : CPUState) (hsp : c.stack_pointer < 256) (h1 : 1 ≤ c.stack_pointer) :
    ∃ c', c.php = some c' ∧ c'.stack_pointer = c.stack_pointer - 1 := by
  unfold CPUState.php
  dsimp only
  rw [cpu_mem_write_ram _ _ _ (by omega)]
  dsimp only
  simp only [checkedDec]
  rw [if_neg (by omega)]
  exact ⟨_, rfl, rfl⟩

theorem jsr_pushes_sp (c : CPUState) (hsp : c.stack_pointer < 256)
    (h1 : 2 ≤ c.stack_pointer) :
    ∃ c', c.jsr_pushes = some c' ∧ c'.stack_pointer = c.stack_pointer - 2 := by
  unfold CPUState.jsr_pushes
  dsimp only
  rw [cpu_mem_write_ram _ _ _ (by omega)]
  dsimp only
  simp only [checkedDec]
  rw [if_neg (by omega)]
  dsimp only
  rw [cpu_mem_write_ram _ _ _ (by omega)]
  dsimp only
  rw [if_neg (by omega)]
  refine ⟨_, rfl, ?_⟩
  dsimp only
  omega

theorem interrupt_nmi_sp (c : CPUState) (hsp : c.stack_pointer < 256)
    (h1 : 3 ≤ c.stack_pointer) :
    ∃ c', c.interrupt_nmi = some c' ∧ c'.stack_pointer = c.stack_pointer - 3 := by
  unfold CPUState.interrupt_nmi
  dsimp only
  rw [cpu_mem_write_ram _ _ _ (by omega)]
  dsimp only
  simp only [checkedDec]
  rw [if_neg (by omega)]
  dsimp only
  rw [cpu_mem_write_ram _ _ _ (by omega)]
  dsimp only
  rw [if_neg (by omega)]
  dsimp only
  rw [cpu_mem_write_ram _ _ _ (by omega)]
  dsimp only
  rw [if_neg (by omega)]
  dsimp only
  unfold CPUState.mem_read_u16
  rw [bus_mem_read_u16_prg _ _ (by norm_num) (by norm_num)]
  dsimp only
  refine ⟨_, rfl, ?_⟩
  dsimp only
  omega

/-- C7 (amended).  For any sequence of stack pushes (PHA, PHP, the JSR push
pair, the NMI-interrupt push triple) that fits in the remaining stack
space, the final stack pointer is the starting one minus the number of
bytes pushed; the subtraction is the checked u8 decrement, so a push with
S = 0 aborts (panics) instead of wrapping to 255. -/
theorem stack_push_sp_spec (ops : List PushOp) (c : CPUState)
    (hsp : c.stack_pointer < 256) (hb : pushBytes ops ≤ c.stack_pointer) :
    ∃ c', execPushes ops c = some c'
      ∧ c'.stack_pointer = c.stack_pointer - pushBytes ops := by
  induction ops generalizing c with
  | nil => exact ⟨c, rfl, by simp [pushBytes]⟩
  | cons op ops ih =>
    have hcons : pushBytes (op :: ops) = op.bytes + pushBytes ops := by
      simp [pushBytes]
    have hbytes : op.bytes ≤ c.stack_pointer := by omega
    have hstep : ∃ c1, op.exec c = some c1
        ∧ c1.stack_pointer = c.stack_pointer - op.bytes := by
      cases op
      · exact pha_sp c hsp (by simpa [PushOp.bytes] using hbytes)
      · exact php_sp c hsp (by simpa [PushOp.bytes] using hbytes)
      · exact jsr_pushes_sp c hsp (by simpa [PushOp.bytes] using hbytes)
      · exact interrupt_nmi_sp c hsp (by simpa [PushOp.bytes] using hbytes)
    obtain ⟨c1, hc1, hsp1⟩ := hstep
    have hb2 : pushBytes ops ≤ c1.stack_pointer := by omega
    obtain ⟨c2, hc2, hsp2⟩ := ih c1 (by omega) hb2
    refine ⟨c2, ?_, by omega⟩
    unfold execPushes
    rw [hc1]
    exact hc2

/-- Counterexample for C7 as stated: a PHA with the stack pointer at 0
aborts (the checked u8 decrement panics) instead of wrapping to 255. -/
theorem stack_push_sp_spec_counterexample : cpuSpZero.pha = none := by
  unfold CPUState.pha
  dsimp only
  rw [cpu_mem_write_ram _ _ _ (by decide)]
  dsimp only
  rfl

/-- Witness for C7 at a concrete input: from S = $FD, the sequence
PHA, PHP, JSR-pushes, NMI-pushes (7 bytes) ends at S = $F6. -/
theorem stack_push_sp_spec_witness :
    (execPushes [PushOp.PHA, PushOp.PHP, PushOp.JSR, PushOp.NMI] sampleCPU).map
      CPUState.stack_pointer = some 0xf6 := by
  obtain ⟨c', h1, h2⟩ := stack_push_sp_spec
    [PushOp.PHA, PushOp.PHP, PushOp.JSR, PushOp.NMI] sampleCPU (by decide) (by decide)
  rw [h1]
  dsimp only [Option.map]
  rw [h2]
  rfl

/-- C8 (amended).  CPU::reset sets A = 0 and X = 0, the status byte to
0b0010_0100, S to $FD, and loads PC from the little-endian reset vector at
$FFFC/$FFFD; every other field — in particular the Y register — is left
unchanged, as the record equation shows. -/
theorem cpu_reset_spec (c : CPUState) :
    c.reset = some { c with
      register_a := 0
      register_x := 0
      status := 0b100100
      stack_pointer := 0xfd
      program_counter :=
        (c.bus.read_prg_rom 0xFFFD <<< 8) ||| c.bus.read_prg_rom 0xFFFC } := by
  unfold CPUState.reset CPUState.mem_read_u16
  dsimp only
  rw [bus_mem_read_u16_prg _ _ (by norm_num) (by norm_num)]

/-- Counterexample for C8 as stated: from a state whose Y register holds 7,
reset() returns a state whose Y register still holds 7, not 0. -/
theorem cpu_reset_spec_counterexample :
    (cpuWithY.reset).map CPUState.register_y = some 7 ∧ (7 : Nat) ≠ 0 := by
  constructor
  · unfold CPUState.reset CPUState.mem_read_u16
    dsimp only
    rw [bus_mem_read_u16_prg _ _ (by norm_num) (by norm_num)]
    rfl
  · decide

/-- C9 (amended).  A CPU bus read of any address in $4000-$4015 other than
$4014 returns 0 and leaves the bus unchanged; reading $4014 falls into the
write-only-register arm and aborts. -/
theorem apu_read_spec (b : Bus) (addr : Nat) (h1 : 0x4000 ≤ addr) (h2 : addr ≤ 0x4015)
    (h3 : addr ≠ 0x4014) :
    b.mem_read addr = some (0, b) := by
  rw [Bus.mem_read]
  rw [if_neg (by omega), if_neg (by omega), if_neg (by omega), if_neg (by omega),
    if_neg (by omega), dif_neg (by omega), if_pos (by omega)]

/-- Counterexample for C9 as stated: reading $4014 panics (write-only
register arm) instead of returning 0. -/
theorem apu_read_spec_counterexample : sampleBus.mem_read 0x4014 = none := by
  rw [Bus.mem_read]
  rw [if_neg (by decide), if_pos (by decide)]

/-- Witness for C9 at a concrete input: reading $4000 on the sample bus
returns 0. -/
theorem apu_read_spec_witness : sampleBus.mem_read 0x4000 = some (0, sampleBus) :=
  apu_read_spec sampleBus 0x4000 (by decide) (by decide) (by decide)

/-- C10 (amended).  Frame::set_pixel bounds its effect only by the whole
buffer, not by the row width: whenever the usize offset arithmetic fits
(in particular for every x, y below 2^32) and
`3*(256*y + x) + 2 < 256*240*3`, exactly the three bytes at offset
`3*(256*y + x)` receive the RGB triple and every other byte is unchanged;
when the arithmetic fits but the bound fails, the frame is unchanged; a
call with x = 256 writes the same bytes as the call at the start of the
following row; and the call panics exactly when a step of the usize offset
arithmetic overflows. -/
theorem set_pixel_spec (f : Frame) (x y r g b : Nat) :
    (x < 2 ^ 32 → y < 2 ^ 32 → 3 * (256 * y + x) + 2 < 256 * 240 * 3 →
      ∃ f', f.set_pixel x y (r, g, b) = some f' ∧
        f'.data (3 * (256 * y + x)) = r ∧
        f'.data (3 * (256 * y + x) + 1) = g ∧
        f'.data (3 * (256 * y + x) + 2) = b ∧
        ∀ i, i ≠ 3 * (256 * y + x) → i ≠ 3 * (256 * y + x) + 1 →
          i ≠ 3 * (256 * y + x) + 2 → f'.data i = f.data i) ∧
    (x < 2 ^ 32 → y < 2 ^ 32 → ¬ 3 * (256 * y + x) + 2 < 256 * 240 * 3 →
      f.set_pixel x y (r, g, b) = some f) ∧
    (y < 2 ^ 32 → f.set_pixel 256 y (r, g, b) = f.set_pixel 0 (y + 1) (r, g, b)) ∧
    (f.set_pixel x y (r, g, b) = none ↔
      (2 ^ 64 ≤ y * 3 ∨ 2 ^ 64 ≤ y * 3 * 256 ∨ 2 ^ 64 ≤ x * 3 ∨
        2 ^ 64 ≤ y * 3 * 256 + x * 3 + 2)) := by
  refine ⟨?_, ?_, ?_, ?_⟩
  · intro hx hy h
    unfold Frame.set_pixel Frame.dataLen Frame.WIDTH Frame.HIGHT
    dsimp only
    rw [if_pos (by omega), if_pos (by omega), if_pos (by omega), if_pos (by omega),
      if_pos (by omega), if_pos (by omega)]
    refine ⟨_, rfl, ?_, ?_, ?_, ?_⟩
    · simp only [store]
      rw [if_neg (by omega), if_neg (by omega), if_pos (by omega)]
    · simp only [store]
      rw [if_neg (by omega), if_pos (by omega)]
    · simp only [store]
      rw [if_pos (by omega)]
    · intro i hi1 hi2 hi3
      simp only [store]
      rw [if_neg (by omega), if_neg (by omega), if_neg (by omega)]
  · intro hx hy h
    unfold Frame.set_pixel Frame.dataLen Frame.WIDTH Frame.HIGHT
    dsimp only
    rw [if_pos (by omega), if_pos (by omega), if_pos (by omega), if_pos (by omega),
      if_pos (by omega), if_neg (by omega)]
  · intro hy
    unfold Frame.set_pixel Frame.dataLen Frame.WIDTH Frame.HIGHT
    dsimp only
    rw [show y * 3 * 256 + 256 * 3 = (y + 1) * 3 * 256 + 0 * 3 from by ring]
    rw [if_pos (show y * 3 < 2 ^ 64 by omega),
      if_pos (show y * 3 * 256 < 2 ^ 64 by omega),
      if_pos (show 256 * 3 < 2 ^ 64 by omega),
      if_pos (show (y + 1) * 3 < 2 ^ 64 by omega),
      if_pos (show (y + 1) * 3 * 256 < 2 ^ 64 by omega),
      if_pos (show 0 * 3 < 2 ^ 64 by omega)]
  · unfold Frame.set_pixel Frame.dataLen Frame.WIDTH Frame.HIGHT
    dsimp only
    split_ifs with h1 h2 h3 h4 h5 h6 <;> simp <;> omega

/-- Counterexample for C10 as stated: at x = 2^63 (a legal usize value)
the computation `x * 3` overflows usize, so the call aborts under the
checked arithmetic instead of leaving the frame unchanged without
panicking. -/
theorem set_pixel_spec_counterexample :
    zeroFrame.set_pixel (2 ^ 63) 0 (1, 2, 3) = none ∧
    ¬ 3 * (256 * 0 + 2 ^ 63) + 2 < 256 * 240 * 3 := by
  constructor
  · unfold Frame.set_pixel Frame.WIDTH
    rw [if_pos (by norm_num), if_pos (by norm_num), if_neg (by norm_num)]
  · norm_num

/-- Witness for C10 at a concrete input: painting pixel (3, 5) on the zero
frame succeeds, sets the byte at offset 3849, and leaves byte 0 unchanged. -/
theorem set_pixel_spec_witness :
    ((zeroFrame.set_pixel 3 5 (9, 8, 7)).map (fun fr => fr.data (3 * (256 * 5 + 3))))
      = some 9 ∧
    ((zeroFrame.set_pixel 3 5 (9, 8, 7)).map (fun fr => fr.data 0)) = some 0 := by
  obtain ⟨f', hf, h1, h2, h3, h4⟩ :=
    (set_pixel_spec zeroFrame 3 5 9 8 7).1 (by norm_num) (by norm_num) (by norm_num)
  rw [hf]
  constructor
  · dsimp only [Option.map]
    rw [h1]
  · dsimp only [Option.map]
    rw [h4 0 (by norm_num) (by norm_num) (by norm_num)]
    rfl

/-- C1.  The run loop's `match code` carries a dispatch arm for opcode $A2
(LDX immediate), but the static opcode table has no entry for it, so the
table lookup that precedes dispatch fails ("OpCode a2 is not recognized")
— the table does not cover every opcode the run loop is prepared to
execute. -/
theorem opcode_table_gap :
    0xa2 ∈ runDispatchedOpcodes ∧ opcodesMapGet 0xa2 = none ∧
    ¬ (∀ code ∈ runDispatchedOpcodes, (opcodesMapGet code).isSome = true) := by
  refine ⟨by decide, rfl, fun h => absurd (h 0xa2 (by decide)) (by decide)⟩
